import Mathlib

/-!
Request handlers of the bookshop API (`main.go`).

The five gin handlers of `main.go` are embedded as functions from the behaviour of their
collaborators (the gin context and the MongoDB driver) to a run: the ordered list of
observable effects (driver calls and `c.JSON` writes) together with the way the handler
ended (normal return, or a Go panic).
-/

namespace Bookshop

/-! ## Go values seen by the handlers -/

/-- Go `error` value; the handlers only ever observe the text returned by `Error()`. -/
structure GoError where
  Error : String
deriving DecidableEq, Repr

/-- `primitive.ObjectID`, a `[12]byte` array, kept as the list of its bytes. -/
structure ObjectID where
  bytes : List Nat
deriving DecidableEq, Repr

/-- `mongo.DeleteResult`; `DeletedCount` is an `int64`, only compared with zero. -/
structure DeleteResult where
  DeletedCount : Int
deriving DecidableEq, Repr

/-- `mongo.InsertOneResult`; `InsertedID` is an `interface{}`. -/
structure InsertOneResult (Any : Type) where
  InsertedID : Any
deriving DecidableEq

/-- `mongo.Cursor` as used here: the only method called is `All(ctx, &out)`, whose outcome is
the slice left in `out` and the returned `error` (`none` is Go `nil`). -/
structure Cursor (BsonM : Type) where
  All : List BsonM × Option GoError

/-- The value stored under a key of a `gin.H` literal. -/
inductive Field (Any : Type) where
  /-- a Go `string` -/
  | string (s : String)
  /-- the method value `err.Error` (a `func() string`, not the string it would return) -/
  | methodValue (err : GoError)
  /-- an `interface{}` value handed over unchanged -/
  | any (v : Any)
deriving DecidableEq

/-- Second argument of `c.JSON`. -/
inductive Body (Any BsonM : Type) where
  /-- a `gin.H` map literal, as its key/value pairs in source order -/
  | H (fields : List (String × Field Any))
  /-- one `bson.M` document -/
  | document (book : BsonM)
  /-- a `[]bson.M` slice -/
  | documents (books : List BsonM)
deriving DecidableEq

/-- Observable effects of a handler, in program order. The driver calls are those issued on
`mongoClient.Database("bookshop").Collection("books")`. -/
inductive Effect (Any BsonM : Type) where
  /-- `Find(ctx, bson.D{{}})` -/
  | Find
  /-- `cursor.All(ctx, &out)` -/
  | All
  /-- `FindOne(ctx, bson.M{"_id": id}).Decode(&book)` -/
  | FindOne (id : ObjectID)
  /-- `Aggregate(ctx, pipeline)` -/
  | Aggregate (pipeline : Any)
  /-- `DeleteOne(ctx, bson.D{{Key: "_id", Value: id}})` -/
  | DeleteOne (id : ObjectID)
  /-- `InsertOne(ctx, document)` -/
  | InsertOne (document : Any)
  /-- `c.JSON(code, obj)` -/
  | JSON (code : Nat) (obj : Body Any BsonM)
deriving DecidableEq

/-- `*gin.Context` as used by the handlers: `c.Param(key)` and the outcome of
`c.ShouldBindJSON(&v)` (the value left in `v` and the returned `error`). -/
structure Context (Any : Type) where
  Param : String → String
  ShouldBindJSON : Any × Option GoError

/-- What the MongoDB driver answers to each call the handlers make. A Go result pair
`(*T, error)` is a pair of options, `none` standing for `nil`. -/
structure Driver (Any BsonM : Type) where
  /-- `primitive.ObjectIDFromHex(s)` -/
  ObjectIDFromHex : String → ObjectID × Option GoError
  Find : Option (Cursor BsonM) × Option GoError
  /-- `FindOne(...).Decode(&book)`: the document left in `book` and the returned error -/
  FindOne : ObjectID → BsonM × Option GoError
  Aggregate : Any → Option (Cursor BsonM) × Option GoError
  DeleteOne : ObjectID → Option DeleteResult × Option GoError
  InsertOne : Any → Option (InsertOneResult Any) × Option GoError

/-! ## Runs -/

/-- A run of handler code: the effects performed so far and the value computed, `none` when
the code panicked (nil pointer dereference). -/
structure Run (Any BsonM : Type) (α : Type) where
  trace : List (Effect Any BsonM)
  value : Option α

namespace Run

variable {Any BsonM : Type} {α β : Type}

/-- Sequencing: a panic stops the run, keeping the effects already performed. -/
def bind (x : Run Any BsonM α) (f : α → Run Any BsonM β) : Run Any BsonM β :=
  match x.value with
  | none => ⟨x.trace, none⟩
  | some a => ⟨x.trace ++ (f a).trace, (f a).value⟩

instance : Monad (Run Any BsonM) where
  pure a := ⟨[], some a⟩
  bind := Run.bind

/-- Perform a driver call: record it and hand back the driver's answer. -/
def call (e : Effect Any BsonM) (answer : α) : Run Any BsonM α :=
  ⟨[e], some answer⟩

/-- Dereference a Go pointer: `nil` panics. -/
def deref : Option α → Run Any BsonM α
  | none => ⟨[], none⟩
  | some a => ⟨[], some a⟩

/-- The `c.JSON(code, obj)` call. -/
def JSON (code : Nat) (obj : Body Any BsonM) : Run Any BsonM Unit :=
  ⟨[Effect.JSON code obj], some ()⟩

/-- The `c.JSON` writes of a run, in order. -/
def responses (r : Run Any BsonM α) : List (Nat × Body Any BsonM) :=
  r.trace.filterMap fun
    | Effect.JSON code obj => some (code, obj)
    | _ => none

/-- The driver calls of a run (everything that is not a `c.JSON` write), in order. -/
def storeCalls (r : Run Any BsonM α) : List (Effect Any BsonM) :=
  r.trace.filter fun
    | Effect.JSON _ _ => false
    | _ => true

/-- The status codes of the `c.JSON` writes of a run, in order. -/
def statuses (r : Run Any BsonM α) : List Nat :=
  r.responses.map Prod.fst

/-- The pipelines handed to `Aggregate` during a run, in order. -/
def aggregateArgs (r : Run Any BsonM α) : List Any :=
  r.trace.filterMap fun
    | Effect.Aggregate pipeline => some pipeline
    | _ => none

/-- The documents handed to `InsertOne` during a run, in order. -/
def insertArgs (r : Run Any BsonM α) : List Any :=
  r.trace.filterMap fun
    | Effect.InsertOne document => some document
    | _ => none

/-- The handler returned normally. -/
abbrev returned (r : Run Any BsonM α) : Prop := r.value.isSome = true

/-- The handler panicked. -/
abbrev panicked (r : Run Any BsonM α) : Prop := r.value = none

end Run

/-! ## HTTP status constants (`net/http`) -/

def StatusOK : Nat := 200
def StatusBadRequest : Nat := 400
def StatusNotFound : Nat := 404
def StatusInternalServerError : Nat := 500

/-! ## The handlers -/

section Handlers

variable {Any BsonM : Type}

open Run

/-- `getBooks` (main.go, lines 64-78). -/
def getBooks (mongoClient : Driver Any BsonM) (_c : Context Any) : Run Any BsonM Unit := do
  let (cursor, err) ← call Effect.Find mongoClient.Find
  if let some err := err then
    JSON StatusInternalServerError (Body.H [("error", Field.string err.Error)])
    return
  let cursor ← deref cursor
  let (books, err) ← call Effect.All cursor.All
  if let some err := err then
    JSON StatusInternalServerError (Body.H [("error", Field.methodValue err)])
    return
  JSON StatusOK (Body.documents books)

/-- `getBookByID` (main.go, lines 81-99). -/
def getBookByID (mongoClient : Driver Any BsonM) (c : Context Any) : Run Any BsonM Unit := do
  let idStr := c.Param "id"
  let (id, err) := mongoClient.ObjectIDFromHex idStr
  if let some err := err then
    JSON StatusBadRequest (Body.H [("error", Field.string err.Error)])
    return
  let (book, err) ← call (Effect.FindOne id) (mongoClient.FindOne id)
  if let some err := err then
    JSON StatusInternalServerError (Body.H [("error", Field.string err.Error)])
    return
  JSON StatusOK (Body.document book)

/-- `agregateBooks` (main.go, lines 102-122). -/
def agregateBooks (mongoClient : Driver Any BsonM) (c : Context Any) : Run Any BsonM Unit := do
  let (pipeline, err) := c.ShouldBindJSON
  if let some err := err then
    JSON StatusBadRequest (Body.H [("error", Field.string err.Error)])
    return
  let (cursor, err) ← call (Effect.Aggregate pipeline) (mongoClient.Aggregate pipeline)
  if let some err := err then
    JSON StatusInternalServerError (Body.H [("error", Field.string err.Error)])
    return
  let cursor ← deref cursor
  let (result, err) ← call Effect.All cursor.All
  if let some err := err then
    JSON StatusInternalServerError (Body.H [("error", Field.string err.Error)])
    return
  JSON StatusOK (Body.documents result)

/-- `deleteBookByID` (main.go, lines 125-147). -/
def deleteBookByID (mongoClient : Driver Any BsonM) (c : Context Any) : Run Any BsonM Unit := do
  let idStr := c.Param "id"
  let (id, err) := mongoClient.ObjectIDFromHex idStr
  if let some err := err then
    JSON StatusBadRequest (Body.H [("error", Field.string err.Error)])
    return
  let (result, err) ← call (Effect.DeleteOne id) (mongoClient.DeleteOne id)
  if let some err := err then
    JSON StatusInternalServerError (Body.H [("error", Field.string err.Error)])
    return
  let result ← deref result
  if result.DeletedCount = 0 then
    JSON StatusNotFound (Body.H [("error", Field.string "book not found")])
    return
  JSON StatusOK (Body.H [("message", Field.string "Book deleted successfully")])

/-- `addBook` (main.go, lines 151-166). The `if err != nil` block after `InsertOne` has no
`return`, so control falls through to `result.InsertedID`. -/
def addBook (mongoClient : Driver Any BsonM) (c : Context Any) : Run Any BsonM Unit := do
  let (pipeline, err) := c.ShouldBindJSON
  if let some err := err then
    JSON StatusBadRequest (Body.H [("error", Field.string err.Error)])
    return
  let (result, err) ← call (Effect.InsertOne pipeline) (mongoClient.InsertOne pipeline)
  if let some err := err then
    JSON StatusInternalServerError (Body.H [("error", Field.string err.Error)])
  let result ← deref result
  let insertedID := result.InsertedID
  JSON StatusOK
    (Body.H [("message", Field.string "Book added successfully"), ("insretedID", Field.any insertedID)])

end Handlers

/-! ## The identifier codec

`primitive.ObjectIDFromHex` and `ObjectID.Hex` belong to the MongoDB driver, whose source is
not part of `main.go`; they are modelled from the specification (section 3 and 4.1).
-/

/-- Modelled from the spec: the hexadecimal digits accepted in an identifier string
(`primitive.ObjectIDFromHex` is driver code, absent from `main.go`). -/
def hexDigits : List Char := "0123456789abcdefABCDEF".data

/-- Modelled from the spec: value of one hexadecimal digit, `none` for any other character
(helper of the absent `primitive.ObjectIDFromHex`). -/
def fromHexChar (c : Char) : Option Nat :=
  let n := c.toNat
  if 48 ≤ n ∧ n ≤ 57 then some (n - 48)
  else if 97 ≤ n ∧ n ≤ 102 then some (n - 87)
  else if 65 ≤ n ∧ n ≤ 70 then some (n - 55)
  else none

/-- Modelled from the spec: two hexadecimal digits per byte, high digit first
(helper of the absent `primitive.ObjectIDFromHex`). -/
def decodeHex : List Char → Option (List Nat)
  | [] => some []
  | [_] => none
  | hi :: lo :: rest =>
    match fromHexChar hi, fromHexChar lo, decodeHex rest with
    | some a, some b, some bs => some ((16 * a + b) :: bs)
    | _, _, _ => none

/-- Modelled from the spec: the zero identifier returned next to an error
(`primitive.NilObjectID`, absent from `main.go`). -/
def NilObjectID : ObjectID := ⟨List.replicate 12 0⟩

/-- Modelled from the spec: the `InvalidIdentifier` failure of section 4.1
(the driver's own error values are absent from `main.go`). -/
def InvalidIdentifier : GoError := ⟨"the provided hex string is not a valid ObjectID"⟩

/-- Modelled from the spec: `primitive.ObjectIDFromHex` (driver code, absent from `main.go`).
Section 4.1: the input must be a hexadecimal string of the native width (24 characters for
the 12-byte identifier of section 3); wrong length, non-hex characters and the empty string
fail with `InvalidIdentifier`. -/
def ObjectIDFromHex (s : String) : ObjectID × Option GoError :=
  if s.length ≠ 24 then (NilObjectID, some InvalidIdentifier)
  else
    match decodeHex s.data with
    | some bs => (⟨bs⟩, none)
    | none => (NilObjectID, some InvalidIdentifier)

/-- Modelled from the spec: the lower-case hexadecimal digit of a value below 16
(helper of the absent `ObjectID.Hex`). -/
def toHexChar (n : Nat) : Char :=
  if n < 10 then Char.ofNat (48 + n) else Char.ofNat (87 + n)

/-- Modelled from the spec: two lower-case hexadecimal digits per byte
(helper of the absent `ObjectID.Hex`). -/
def encodeHex : List Nat → List Char
  | [] => []
  | b :: bs => toHexChar (b / 16) :: toHexChar (b % 16) :: encodeHex bs

/-- Modelled from the spec: `ObjectID.Hex`, the default textual rendering of an identifier as
a 24-character hexadecimal string (driver code, absent from `main.go`). -/
def ObjectID.Hex (id : ObjectID) : String := ⟨encodeHex id.bytes⟩

/-! ## Concrete collaborators

Payloads (`interface{}` values and `bson.M` documents) are never inspected by the handlers;
in the concrete runs below both are represented by their JSON text.
-/

/-- Modelled from the spec: the store's "no document matches" signal of section 4.3
(`mongo.ErrNoDocuments`, driver code absent from `main.go`). -/
def ErrNoDocuments : GoError := ⟨"mongo: no documents in result"⟩

/-- A request for `/books/507f1f77bcf86cd799439011` whose body is the JSON document
`{"title":"Dune"}`. -/
def duneRequest : Context String :=
  ⟨fun key => if key = "id" then "507f1f77bcf86cd799439011" else "",
   ("\x7b\"title\":\"Dune\"\x7d", none)⟩

/-- A request for `/books/not-an-id` whose body is not valid JSON. -/
def malformedRequest : Context String :=
  ⟨fun key => if key = "id" then "not-an-id" else "",
   ("", some ⟨"unexpected end of JSON input"⟩)⟩

/-- A request for `/books/507f1f77bcf86cd799439011` whose body is the pipeline `[]`. -/
def emptyPipelineRequest : Context String :=
  ⟨fun key => if key = "id" then "507f1f77bcf86cd799439011" else "", ("[]", none)⟩

/-- The collection holds one book and every call succeeds; the identifier asked for is not
assigned, so `DeleteOne` reports a count of zero and `FindOne` reports `ErrNoDocuments`. -/
def healthyStore : Driver String String where
  ObjectIDFromHex := ObjectIDFromHex
  Find := (some ⟨(["\x7b\"title\":\"Emma\"\x7d"], none)⟩, none)
  FindOne := fun _ => ("", some ErrNoDocuments)
  Aggregate := fun _ => (some ⟨(["\x7b\"title\":\"Emma\"\x7d"], none)⟩, none)
  DeleteOne := fun _ => (some ⟨0⟩, none)
  InsertOne := fun _ => (some ⟨"65f0c0ffee0123456789abcd"⟩, none)

/-- The connection is lost: `FindOne` fails with a transport error. -/
def unreachableStore : Driver String String where
  ObjectIDFromHex := ObjectIDFromHex
  Find := (none, some ⟨"server selection timeout"⟩)
  FindOne := fun _ => ("", some ⟨"server selection timeout"⟩)
  Aggregate := fun _ => (none, some ⟨"server selection timeout"⟩)
  DeleteOne := fun _ => (none, some ⟨"server selection timeout"⟩)
  InsertOne := fun _ => (none, some ⟨"server selection timeout"⟩)

/-- `Find` succeeds and the cursor fails while being drained by `cursor.All`. -/
def brokenCursorStore : Driver String String where
  ObjectIDFromHex := ObjectIDFromHex
  Find := (some ⟨([], some ⟨"connection reset by peer"⟩)⟩, none)
  FindOne := fun _ => ("", some ErrNoDocuments)
  Aggregate := fun _ => (some ⟨([], some ⟨"connection reset by peer"⟩)⟩, none)
  DeleteOne := fun _ => (some ⟨0⟩, none)
  InsertOne := fun _ => (some ⟨"65f0c0ffee0123456789abcd"⟩, none)

/-- `InsertOne` returns both a result and an error, as the driver does for a write that the
server was asked not to acknowledge. -/
def unacknowledgedStore : Driver String String where
  ObjectIDFromHex := ObjectIDFromHex
  Find := (some ⟨([], none)⟩, none)
  FindOne := fun _ => ("", some ErrNoDocuments)
  Aggregate := fun _ => (some ⟨([], none)⟩, none)
  DeleteOne := fun _ => (some ⟨0⟩, none)
  InsertOne := fun _ => (some ⟨"65f0c0ffee0123456789abcd"⟩, some ⟨"unacknowledged write"⟩)

/-! ## Run of each handler, outcome by outcome -/

section RunLemmas

variable {Any BsonM : Type}

open Run

theorem Run.bind_eq {α β : Type} (x : Run Any BsonM α) (f : α → Run Any BsonM β) :
    (x >>= f) = Run.bind x f := rfl

theorem Run.pure_eq {α : Type} (a : α) : (pure a : Run Any BsonM α) = ⟨[], some a⟩ := rfl

theorem getBookByID_parse_err (mongoClient : Driver Any BsonM) (c : Context Any) (id : ObjectID)
    (e : GoError) (h : mongoClient.ObjectIDFromHex (c.Param "id") = (id, some e)) :
    getBookByID mongoClient c =
      ⟨[Effect.JSON 400 (Body.H [("error", Field.string e.Error)])], some ()⟩ := by
  simp [getBookByID, h, Run.bind_eq, Run.pure_eq, Run.bind, JSON, StatusBadRequest]

theorem deleteBookByID_parse_err (mongoClient : Driver Any BsonM) (c : Context Any)
    (id : ObjectID) (e : GoError) (h : mongoClient.ObjectIDFromHex (c.Param "id") = (id, some e)) :
    deleteBookByID mongoClient c =
      ⟨[Effect.JSON 400 (Body.H [("error", Field.string e.Error)])], some ()⟩ := by
  simp [deleteBookByID, h, Run.bind_eq, Run.pure_eq, Run.bind, JSON, StatusBadRequest]

theorem agregateBooks_bind_err (mongoClient : Driver Any BsonM) (c : Context Any) (v : Any)
    (e : GoError) (h : c.ShouldBindJSON = (v, some e)) :
    agregateBooks mongoClient c =
      ⟨[Effect.JSON 400 (Body.H [("error", Field.string e.Error)])], some ()⟩ := by
  simp [agregateBooks, h, Run.bind_eq, Run.pure_eq, Run.bind, JSON, StatusBadRequest]

theorem addBook_bind_err (mongoClient : Driver Any BsonM) (c : Context Any) (v : Any)
    (e : GoError) (h : c.ShouldBindJSON = (v, some e)) :
    addBook mongoClient c =
      ⟨[Effect.JSON 400 (Body.H [("error", Field.string e.Error)])], some ()⟩ := by
  simp [addBook, h, Run.bind_eq, Run.pure_eq, Run.bind, JSON, StatusBadRequest]

theorem deleteBookByID_no_err (mongoClient : Driver Any BsonM) (c : Context Any)
    (id : ObjectID) (n : Int)
    (hid : mongoClient.ObjectIDFromHex (c.Param "id") = (id, none))
    (hdel : mongoClient.DeleteOne id = (some ⟨n⟩, none)) :
    deleteBookByID mongoClient c =
      ⟨[Effect.DeleteOne id,
        if n = 0 then Effect.JSON 404 (Body.H [("error", Field.string "book not found")])
        else Effect.JSON 200 (Body.H [("message", Field.string "Book deleted successfully")])],
       some ()⟩ := by
  by_cases hn : n = 0 <;>
    simp [deleteBookByID, hid, hdel, hn, Run.bind_eq, Run.pure_eq, Run.bind, JSON, call, deref,
      StatusNotFound, StatusOK]

theorem agregateBooks_args (mongoClient : Driver Any BsonM) (c : Context Any) (p : Any)
    (hbind : c.ShouldBindJSON = (p, none)) :
    (agregateBooks mongoClient c).aggregateArgs = [p] := by
  rcases hagg : mongoClient.Aggregate p with ⟨_ | cursor, _ | e⟩
  · simp [agregateBooks, hbind, hagg, Run.bind_eq, Run.pure_eq, Run.bind, JSON, call, deref,
      aggregateArgs]
  · simp [agregateBooks, hbind, hagg, Run.bind_eq, Run.pure_eq, Run.bind, JSON, call, deref,
      aggregateArgs]
  · rcases hall : cursor.All with ⟨r, _ | e⟩ <;>
      simp [agregateBooks, hbind, hagg, hall, Run.bind_eq, Run.pure_eq, Run.bind, JSON, call,
        deref, aggregateArgs]
  · simp [agregateBooks, hbind, hagg, Run.bind_eq, Run.pure_eq, Run.bind, JSON, call, deref,
      aggregateArgs]

theorem agregateBooks_ok (mongoClient : Driver Any BsonM) (c : Context Any) (p : Any)
    (cursor : Cursor BsonM) (r : List BsonM)
    (hbind : c.ShouldBindJSON = (p, none))
    (hagg : mongoClient.Aggregate p = (some cursor, none))
    (hall : cursor.All = (r, none)) :
    agregateBooks mongoClient c =
      ⟨[Effect.Aggregate p, Effect.All, Effect.JSON 200 (Body.documents r)], some ()⟩ := by
  simp [agregateBooks, hbind, hagg, hall, Run.bind_eq, Run.pure_eq, Run.bind, JSON, call, deref,
    StatusOK]

theorem addBook_ok (mongoClient : Driver Any BsonM) (c : Context Any) (d i : Any)
    (hbind : c.ShouldBindJSON = (d, none))
    (hins : mongoClient.InsertOne d = (some ⟨i⟩, none)) :
    addBook mongoClient c =
      ⟨[Effect.InsertOne d,
        Effect.JSON 200
          (Body.H [("message", Field.string "Book added successfully"),
            ("insretedID", Field.any i)])],
       some ()⟩ := by
  simp [addBook, hbind, hins, Run.bind_eq, Run.pure_eq, Run.bind, JSON, call, deref, StatusOK]

theorem getBooks_writes_once (mongoClient : Driver Any BsonM) (c : Context Any)
    (h : (getBooks mongoClient c).returned) : (getBooks mongoClient c).responses.length = 1 := by
  revert h
  rcases hfind : mongoClient.Find with ⟨_ | cursor, _ | e⟩
  · simp [getBooks, hfind, Run.bind_eq, Run.pure_eq, Run.bind, JSON, call, deref, responses]
  · simp [getBooks, hfind, Run.bind_eq, Run.pure_eq, Run.bind, JSON, call, deref, responses]
  · rcases hall : cursor.All with ⟨r, _ | e⟩ <;>
      simp [getBooks, hfind, hall, Run.bind_eq, Run.pure_eq, Run.bind, JSON, call, deref,
        responses]
  · simp [getBooks, hfind, Run.bind_eq, Run.pure_eq, Run.bind, JSON, call, deref, responses]

theorem getBookByID_writes_once (mongoClient : Driver Any BsonM) (c : Context Any) :
    (getBookByID mongoClient c).returned ∧ (getBookByID mongoClient c).responses.length = 1 := by
  rcases hid : mongoClient.ObjectIDFromHex (c.Param "id") with ⟨id, _ | e⟩
  · rcases hone : mongoClient.FindOne id with ⟨book, _ | e⟩ <;>
      simp [getBookByID, hid, hone, Run.bind_eq, Run.pure_eq, Run.bind, JSON, call, responses,
        returned]
  · simp [getBookByID, hid, Run.bind_eq, Run.pure_eq, Run.bind, JSON, call, responses, returned]

theorem agregateBooks_writes_once (mongoClient : Driver Any BsonM) (c : Context Any)
    (h : (agregateBooks mongoClient c).returned) :
    (agregateBooks mongoClient c).responses.length = 1 := by
  revert h
  rcases hbind : c.ShouldBindJSON with ⟨p, _ | e⟩
  · rcases hagg : mongoClient.Aggregate p with ⟨_ | cursor, _ | e⟩
    · simp [agregateBooks, hbind, hagg, Run.bind_eq, Run.pure_eq, Run.bind, JSON, call, deref,
        responses]
    · simp [agregateBooks, hbind, hagg, Run.bind_eq, Run.pure_eq, Run.bind, JSON, call, deref,
        responses]
    · rcases hall : cursor.All with ⟨r, _ | e⟩ <;>
        simp [agregateBooks, hbind, hagg, hall, Run.bind_eq, Run.pure_eq, Run.bind, JSON, call,
          deref, responses]
    · simp [agregateBooks, hbind, hagg, Run.bind_eq, Run.pure_eq, Run.bind, JSON, call, deref,
        responses]
  · simp [agregateBooks, hbind, Run.bind_eq, Run.pure_eq, Run.bind, JSON, call, deref,
      responses]

theorem deleteBookByID_writes_once (mongoClient : Driver Any BsonM) (c : Context Any)
    (h : (deleteBookByID mongoClient c).returned) :
    (deleteBookByID mongoClient c).responses.length = 1 := by
  revert h
  rcases hid : mongoClient.ObjectIDFromHex (c.Param "id") with ⟨id, _ | e⟩
  · rcases hdel : mongoClient.DeleteOne id with ⟨_ | result, _ | e⟩
    · simp [deleteBookByID, hid, hdel, Run.bind_eq, Run.pure_eq, Run.bind, JSON, call, deref,
        responses]
    · simp [deleteBookByID, hid, hdel, Run.bind_eq, Run.pure_eq, Run.bind, JSON, call, deref,
        responses]
    · by_cases hn : result.DeletedCount = 0 <;>
        simp [deleteBookByID, hid, hdel, hn, Run.bind_eq, Run.pure_eq, Run.bind, JSON, call,
          deref, responses]
    · simp [deleteBookByID, hid, hdel, Run.bind_eq, Run.pure_eq, Run.bind, JSON, call, deref,
        responses]
  · simp [deleteBookByID, hid, Run.bind_eq, Run.pure_eq, Run.bind, JSON, call, deref,
      responses]

end RunLemmas

/-! ## The identifier codec: digits and byte lists -/

theorem fromHexChar_isSome_of_mem : ∀ c ∈ hexDigits, (fromHexChar c).isSome = true := by
  decide

theorem toHexChar_of_fromHexChar :
    ∀ c ∈ hexDigits, ∀ n < 16, fromHexChar c = some n → toHexChar n = c.toLower := by
  decide

theorem fromHexChar_toHexChar : ∀ n < 16, fromHexChar (toHexChar n) = some n := by
  decide

theorem fromHexChar_lt (c : Char) (n : Nat) (h : fromHexChar c = some n) : n < 16 := by
  unfold fromHexChar at h
  simp only at h
  split_ifs at h <;> simp at h <;> omega

theorem fromHexChar_digit (c : Char) (hc : c ∈ hexDigits) :
    ∃ n, fromHexChar c = some n ∧ n < 16 ∧ toHexChar n = c.toLower := by
  have hsome := fromHexChar_isSome_of_mem c hc
  obtain ⟨n, hn⟩ := Option.isSome_iff_exists.mp hsome
  have hlt := fromHexChar_lt c n hn
  exact ⟨n, hn, hlt, toHexChar_of_fromHexChar c hc n hlt hn⟩

theorem decodeHex_spec : ∀ (l : List Char), (∀ c ∈ l, c ∈ hexDigits) → l.length % 2 = 0 →
    ∃ bs, decodeHex l = some bs ∧ 2 * bs.length = l.length ∧ (∀ b ∈ bs, b < 256) ∧
      encodeHex bs = l.map Char.toLower ∧ decodeHex (encodeHex bs) = some bs
  | [], _, _ => ⟨[], rfl, rfl, by simp, rfl, rfl⟩
  | [_], _, h => by simp at h
  | hi :: lo :: rest, hmem, hlen => by
    have hrest : ∀ c ∈ rest, c ∈ hexDigits := fun c hc => hmem c (by simp [hc])
    have hlen2 : rest.length % 2 = 0 := by
      simp only [List.length_cons] at hlen
      omega
    obtain ⟨bs, hdec, hlenbs, hbytes, henc, hback⟩ := decodeHex_spec rest hrest hlen2
    obtain ⟨a, ha, halt, hachar⟩ := fromHexChar_digit hi (hmem hi (by simp))
    obtain ⟨b, hb, hblt, hbchar⟩ := fromHexChar_digit lo (hmem lo (by simp))
    have hdiv : (16 * a + b) / 16 = a := by omega
    have hmod : (16 * a + b) % 16 = b := by omega
    refine ⟨(16 * a + b) :: bs, ?_, ?_, ?_, ?_, ?_⟩
    · simp [decodeHex, ha, hb, hdec]
    · simp only [List.length_cons]
      omega
    · intro x hx
      rcases List.mem_cons.mp hx with rfl | hx
      · omega
      · exact hbytes x hx
    · simp [encodeHex, hdiv, hmod, hachar, hbchar, henc]
    · simp [encodeHex, decodeHex, hdiv, hmod, fromHexChar_toHexChar a halt,
        fromHexChar_toHexChar b hblt, hback]

/-! ## Claims -/

section Claims

variable {Any BsonM : Type}

/-- C1: in `deleteBookByID`, when the identifier parses and `DeleteOne` returns no error, the
handler returns normally with exactly one response; its status is 404 if and only if the
reported `DeletedCount` is 0, it is 200 with the confirmation message whenever the count is
at least 1, and it is never 500. -/
theorem deleteBookByID_not_found_iff_zero (mongoClient : Driver Any BsonM) (c : Context Any)
    (id : ObjectID) (n : Int)
    (hid : mongoClient.ObjectIDFromHex (c.Param "id") = (id, none))
    (hdel : mongoClient.DeleteOne id = (some ⟨n⟩, none)) :
    (deleteBookByID mongoClient c).returned ∧
    ((deleteBookByID mongoClient c).statuses = [StatusNotFound] ↔ n = 0) ∧
    (1 ≤ n → (deleteBookByID mongoClient c).responses =
      [(StatusOK, Body.H [("message", Field.string "Book deleted successfully")])]) ∧
    (deleteBookByID mongoClient c).statuses.length = 1 ∧
    StatusInternalServerError ∉ (deleteBookByID mongoClient c).statuses := by
  rw [deleteBookByID_no_err mongoClient c id n hid hdel]
  by_cases hn : n = 0
  · subst hn
    simp [Run.returned, Run.statuses, Run.responses, StatusNotFound, StatusInternalServerError]
  · simp [hn, Run.returned, Run.statuses, Run.responses, StatusNotFound, StatusOK,
      StatusInternalServerError]

theorem deleteBookByID_not_found_iff_zero_witness :
    (deleteBookByID healthyStore duneRequest).returned ∧
    ((deleteBookByID healthyStore duneRequest).statuses = [StatusNotFound] ↔ (0 : Int) = 0) ∧
    ((1 : Int) ≤ 0 → (deleteBookByID healthyStore duneRequest).responses =
      [(StatusOK, Body.H [("message", Field.string "Book deleted successfully")])]) ∧
    (deleteBookByID healthyStore duneRequest).statuses.length = 1 ∧
    StatusInternalServerError ∉ (deleteBookByID healthyStore duneRequest).statuses :=
  deleteBookByID_not_found_iff_zero healthyStore duneRequest
    ⟨[80, 127, 31, 119, 188, 248, 108, 215, 153, 67, 144, 17]⟩ 0 (by decide) rfl

/-- C2 (evaluated at the failing input): when `FindOne(...).Decode` reports
`ErrNoDocuments` for a well-formed identifier, `getBookByID` answers 500 with the error text,
not 404: the same status as for a transport failure. -/
theorem getBookByID_not_found_answers_500 :
    (getBookByID healthyStore duneRequest).responses =
      [(500, Body.H [("error", Field.string "mongo: no documents in result")])] ∧
    StatusNotFound ∉ (getBookByID healthyStore duneRequest).statuses ∧
    (getBookByID healthyStore duneRequest).statuses =
      (getBookByID unreachableStore duneRequest).statuses := by
  decide

/-- C3: when the path identifier fails to parse, `getBookByID` and `deleteBookByID` answer
400 with the parse error and perform no driver call; when the body fails to bind as JSON,
`agregateBooks` and `addBook` answer 400 with the bind error and perform no driver call. -/
theorem malformed_input_rejected_before_store (mongoClient : Driver Any BsonM)
    (c : Context Any) :
    (∀ id e, mongoClient.ObjectIDFromHex (c.Param "id") = (id, some e) →
      (getBookByID mongoClient c).responses =
          [(StatusBadRequest, Body.H [("error", Field.string e.Error)])] ∧
        (getBookByID mongoClient c).storeCalls = [] ∧
        (getBookByID mongoClient c).returned ∧
        (deleteBookByID mongoClient c).responses =
          [(StatusBadRequest, Body.H [("error", Field.string e.Error)])] ∧
        (deleteBookByID mongoClient c).storeCalls = [] ∧
        (deleteBookByID mongoClient c).returned) ∧
    (∀ v e, c.ShouldBindJSON = (v, some e) →
      (agregateBooks mongoClient c).responses =
          [(StatusBadRequest, Body.H [("error", Field.string e.Error)])] ∧
        (agregateBooks mongoClient c).storeCalls = [] ∧
        (agregateBooks mongoClient c).returned ∧
        (addBook mongoClient c).responses =
          [(StatusBadRequest, Body.H [("error", Field.string e.Error)])] ∧
        (addBook mongoClient c).storeCalls = [] ∧
        (addBook mongoClient c).returned) := by
  constructor
  · intro id e h
    rw [getBookByID_parse_err mongoClient c id e h, deleteBookByID_parse_err mongoClient c id e h]
    simp [Run.responses, Run.storeCalls, Run.returned, StatusBadRequest]
  · intro v e h
    rw [agregateBooks_bind_err mongoClient c v e h, addBook_bind_err mongoClient c v e h]
    simp [Run.responses, Run.storeCalls, Run.returned, StatusBadRequest]

theorem malformed_input_rejected_before_store_witness :
    ((getBookByID healthyStore malformedRequest).responses =
        [(StatusBadRequest, Body.H [("error", Field.string InvalidIdentifier.Error)])] ∧
      (getBookByID healthyStore malformedRequest).storeCalls = [] ∧
      (getBookByID healthyStore malformedRequest).returned ∧
      (deleteBookByID healthyStore malformedRequest).responses =
        [(StatusBadRequest, Body.H [("error", Field.string InvalidIdentifier.Error)])] ∧
      (deleteBookByID healthyStore malformedRequest).storeCalls = [] ∧
      (deleteBookByID healthyStore malformedRequest).returned) ∧
    ((agregateBooks healthyStore malformedRequest).responses =
        [(StatusBadRequest, Body.H [("error", Field.string "unexpected end of JSON input")])] ∧
      (agregateBooks healthyStore malformedRequest).storeCalls = [] ∧
      (agregateBooks healthyStore malformedRequest).returned ∧
      (addBook healthyStore malformedRequest).responses =
        [(StatusBadRequest, Body.H [("error", Field.string "unexpected end of JSON input")])] ∧
      (addBook healthyStore malformedRequest).storeCalls = [] ∧
      (addBook healthyStore malformedRequest).returned) :=
  ⟨(malformed_input_rejected_before_store healthyStore malformedRequest).1
      NilObjectID InvalidIdentifier (by decide),
   (malformed_input_rejected_before_store healthyStore malformedRequest).2
      "" ⟨"unexpected end of JSON input"⟩ rfl⟩

/-- C4 (evaluated at the failing input): when `InsertOne` returns an error together with a
result, `addBook` writes the 500 error response and then, the error branch having no
`return`, also writes the 200 success confirmation with the identifier. -/
theorem addBook_insert_error_still_confirms :
    (addBook unacknowledgedStore duneRequest).responses =
      [(500, Body.H [("error", Field.string "unacknowledged write")]),
       (200, Body.H [("message", Field.string "Book added successfully"),
          ("insretedID", Field.any "65f0c0ffee0123456789abcd")])] := by
  decide

/-- C5 (evaluated at the failing input): when `InsertOne` returns an error together with a
nil result, `addBook` writes the 500 error response and then panics on `result.InsertedID`
instead of returning. -/
theorem addBook_insert_error_nil_result_panics :
    (addBook unreachableStore duneRequest).panicked ∧
    ¬ (addBook unreachableStore duneRequest).returned ∧
    (addBook unreachableStore duneRequest).statuses = [500] := by
  decide

/-- C6 (evaluated at the failing input): when `cursor.All` fails in `getBooks`, the body
handed to `c.JSON` carries the method value `err.Error` under the key `error`, not the string
`err.Error()`. -/
theorem getBooks_cursor_error_body_is_method_value :
    (getBooks brokenCursorStore duneRequest).responses =
      [(500, Body.H [("error", Field.methodValue ⟨"connection reset by peer"⟩)])] ∧
    (getBooks brokenCursorStore duneRequest).responses ≠
      [(500, Body.H [("error", Field.string "connection reset by peer")])] := by
  decide

/-- C7: in `agregateBooks`, when the body binds to `p`, the only pipeline ever handed to
`Aggregate` is `p` itself, whatever the store answers; and when `Aggregate` and `cursor.All`
succeed with documents `r`, the handler calls `Aggregate p`, then `All`, then answers 200
with exactly `r`, and returns. -/
theorem agregateBooks_passes_pipeline_through (mongoClient : Driver Any BsonM)
    (c : Context Any) (p : Any) (hbind : c.ShouldBindJSON = (p, none)) :
    (agregateBooks mongoClient c).aggregateArgs = [p] ∧
    (∀ cursor r, mongoClient.Aggregate p = (some cursor, none) → cursor.All = (r, none) →
      agregateBooks mongoClient c =
        ⟨[Effect.Aggregate p, Effect.All, Effect.JSON StatusOK (Body.documents r)], some ()⟩) :=
  ⟨agregateBooks_args mongoClient c p hbind,
   fun cursor r hagg hall => agregateBooks_ok mongoClient c p cursor r hbind hagg hall⟩

theorem agregateBooks_passes_pipeline_through_witness :
    (agregateBooks healthyStore emptyPipelineRequest).aggregateArgs = ["[]"] ∧
    agregateBooks healthyStore emptyPipelineRequest =
      ⟨[Effect.Aggregate "[]", Effect.All,
        Effect.JSON StatusOK (Body.documents ["\x7b\"title\":\"Emma\"\x7d"])], some ()⟩ :=
  ⟨(agregateBooks_passes_pipeline_through healthyStore emptyPipelineRequest "[]" rfl).1,
   (agregateBooks_passes_pipeline_through healthyStore emptyPipelineRequest "[]" rfl).2
     ⟨(["\x7b\"title\":\"Emma\"\x7d"], none)⟩ ["\x7b\"title\":\"Emma\"\x7d"] rfl rfl⟩

/-- C8: in `addBook`, when the body binds to `d` and `InsertOne d` succeeds with identifier
`i`, the handler performs the single driver call `InsertOne d`, answers 200 with the
confirmation message and `i` unchanged, and returns. -/
theorem addBook_inserts_body_and_returns_store_id (mongoClient : Driver Any BsonM)
    (c : Context Any) (d i : Any)
    (hbind : c.ShouldBindJSON = (d, none))
    (hins : mongoClient.InsertOne d = (some ⟨i⟩, none)) :
    (addBook mongoClient c).storeCalls = [Effect.InsertOne d] ∧
    (addBook mongoClient c).insertArgs = [d] ∧
    (addBook mongoClient c).responses =
      [(StatusOK, Body.H [("message", Field.string "Book added successfully"),
          ("insretedID", Field.any i)])] ∧
    (addBook mongoClient c).returned := by
  rw [addBook_ok mongoClient c d i hbind hins]
  simp [Run.storeCalls, Run.insertArgs, Run.responses, Run.returned, StatusOK]

theorem addBook_inserts_body_and_returns_store_id_witness :
    (addBook healthyStore duneRequest).storeCalls =
      [Effect.InsertOne "\x7b\"title\":\"Dune\"\x7d"] ∧
    (addBook healthyStore duneRequest).insertArgs = ["\x7b\"title\":\"Dune\"\x7d"] ∧
    (addBook healthyStore duneRequest).responses =
      [(StatusOK, Body.H [("message", Field.string "Book added successfully"),
          ("insretedID", Field.any "65f0c0ffee0123456789abcd")])] ∧
    (addBook healthyStore duneRequest).returned :=
  addBook_inserts_body_and_returns_store_id healthyStore duneRequest
    "\x7b\"title\":\"Dune\"\x7d" "65f0c0ffee0123456789abcd" rfl rfl

/-- C9: every 24-character hexadecimal string `s` parses to an identifier of 12 bytes; the
rendering of that identifier parses back to the same identifier and equals `s` with its
letters put in lower case. -/
theorem ObjectIDFromHex_roundtrip (s : String) (hlen : s.length = 24)
    (hhex : ∀ c ∈ s.data, c ∈ hexDigits) :
    ∃ id, ObjectIDFromHex s = (id, none) ∧ id.bytes.length = 12 ∧ (∀ b ∈ id.bytes, b < 256) ∧
      ObjectIDFromHex id.Hex = (id, none) ∧ id.Hex = s.toLower := by
  have hlen2 : s.data.length = 24 := hlen
  obtain ⟨bs, hdec, hlenbs, hbytes, henc, hback⟩ :=
    decodeHex_spec s.data hhex (by rw [hlen2])
  have hhexlen : (encodeHex bs).length = 24 := by rw [henc, List.length_map, hlen2]
  refine ⟨⟨bs⟩, ?_, ?_, hbytes, ?_, ?_⟩
  · simp [ObjectIDFromHex, hlen, hdec]
  · show bs.length = 12
    omega
  · have h24 : (ObjectID.Hex ⟨bs⟩).length = 24 := hhexlen
    simp [ObjectIDFromHex, h24, ObjectID.Hex, hback, hhexlen]
  · simp [ObjectID.Hex, String.toLower, String.map_eq, henc]

theorem ObjectIDFromHex_roundtrip_witness :
    ∃ id, ObjectIDFromHex "507F1f77bcf86cd799439011" = (id, none) ∧ id.bytes.length = 12 ∧
      (∀ b ∈ id.bytes, b < 256) ∧ ObjectIDFromHex id.Hex = (id, none) ∧
      id.Hex = "507F1f77bcf86cd799439011".toLower :=
  ObjectIDFromHex_roundtrip "507F1f77bcf86cd799439011" (by decide) (by decide)

/-- C10 (evaluated at the failing input): when `InsertOne` returns an error together with a
result, `addBook` invokes `c.JSON` twice on the executed path, first with status 500 and then
with status 200. -/
theorem addBook_writes_two_responses :
    (addBook unacknowledgedStore duneRequest).responses.length = 2 ∧
    (addBook unacknowledgedStore duneRequest).statuses = [500, 200] ∧
    (addBook unacknowledgedStore duneRequest).returned := by
  decide

end Claims

end Bookshop
